import Mathlib

/-!
Verification of the coveredrx coverage-resolution core: a shallow embedding of
the backend services (formulary index, medication normalizer, remote coverage
resolver, orchestrator) together with theorems about the behaviour the
specification ascribes to them.

Modelling conventions:
- JavaScript strings are Lean `String`s; `toLowerCase`, `trim` and `includes`
  are modelled by `jsLower`, `String.trim` and `jsIncludes` (ASCII lowering,
  which covers all drug names appearing in the system).
- Asynchronous calls are modelled by oracle values of type `Settled α`
  mirroring the two outcomes of `Promise.allSettled` entries.
- Thrown exceptions are modelled with `Except String`; a `try`/`catch` block
  becomes a `match` on the `Except` value.
- Numbers holding currency amounts and confidences are rationals (`ℚ`).
- Clock reads (`Date.now() - startTime`, `new Date().toISOString()`) are
  oracle fields.
-/

namespace CoveredRx

/-- JS `s.toLowerCase()` (ASCII model): lower each character. -/
def jsLower (s : String) : String := ⟨s.data.map Char.toLower⟩

/-- JS `s.includes(sub)`: `sub` occurs contiguously inside `s`. -/
def jsIncludes (s sub : String) : Bool := decide (sub.data <:+: s.data)

/-- JS `s.trim()`: strip leading and trailing whitespace (list-based model). -/
def jsTrim (s : String) : String :=
  ⟨((s.data.dropWhile Char.isWhitespace).reverse.dropWhile Char.isWhitespace).reverse⟩

/-- JS `a.toLowerCase().trim()` as applied by the formulary lookup. -/
def normalizeQuery (s : String) : String := jsTrim (jsLower s)

/-- JS `a || b` for an optional string `a` (empty string is falsy). -/
def jsOrStr : Option String → String → String
  | some s, d => if s = "" then d else s
  | none, d => d

/-- JS `a || undefined` / `a || null` for an optional string (empty string is falsy). -/
def jsOrNone : Option String → Option String
  | some s => if s = "" then none else some s
  | none => none

/-- JS `a || d` for an optional number `a` (0 is falsy). -/
def jsOrQ : Option ℚ → ℚ → ℚ
  | some v, d => if v = 0 then d else v
  | none, d => d

/-- JS `Math.round` (round half toward positive infinity). -/
def mathRound (q : ℚ) : Int := ⌊q + mkRat 1 2⌋

/-- String interpolation of a possibly-undefined value (JS prints `undefined`). -/
def optShow : Option String → String
  | some s => s
  | none => "undefined"

/-- Outcome of one entry of `Promise.allSettled`. -/
inductive Settled (α : Type) where
  | fulfilled (value : α)
  | rejected (reason : String)
deriving Repr, DecidableEq

/-! ## Data model (shared/types/index.ts) -/

structure Medication where
  name : String
  genericName : Option String := none
  brandName : Option String := none
  strength : Option String := none
  dosageForm : Option String := none
  ndc : Option String := none
deriving Repr, DecidableEq

structure InsurancePlan where
  id : String
  name : String
  carrier : String
  planType : String
deriving Repr, DecidableEq

structure NormalizedMedicationResult where
  medication : Medication
  confidence : ℚ
  searchResults : Option String := none
deriving Repr, DecidableEq

structure SuggestedAlternative where
  name : String
  tier : Int
  copay : ℚ
  prior_auth : Bool
  reason : String
deriving Repr, DecidableEq

/-- Remote-resolver result shape (toolhouseService.ts).  `is_covered` and
`tier` are optional because the parsed agent JSON may carry `null` there,
which the orchestrator explicitly tests for. -/
structure ToolhouseCoverageResponse where
  is_covered : Option Bool
  tier : Option Int
  copay : Option ℚ
  prior_auth_required : Bool
  prior_auth_details : Option String
  quantity_limits : Bool
  quantity_limit_details : Option String
  step_therapy_required : Bool
  step_therapy_alternatives : Option (List String)
  suggested_alternatives : Option (List SuggestedAlternative)
  pharmacy_notes : Option String
  explanation : String
  data_source : Option String := none
deriving Repr, DecidableEq

structure EstimatedCopay where
  min : ℚ
  max : ℚ
  currency : String
deriving Repr, DecidableEq

structure PriorAuthRequirement where
  required : Bool
  reason : Option String := none
  estimatedApprovalTime : Option String := none
deriving Repr, DecidableEq

/-! Web research data model (webResearchService.ts). -/

structure AlternativeDrug where
  name : String
  genericName : Option String := none
  brandName : Option String := none
  cashPrice : Option ℚ := none
  pharmacy : Option String := none
  source : Option String := none
  availability : Option String := none
  savings : Option ℚ := none
deriving Repr, DecidableEq

structure PriceComparison where
  pharmacy : String
  price : ℚ
  discounts : Option (List String) := none
deriving Repr, DecidableEq

structure PAStrategy where
  strategy : String
  successRate : Option String := none
  requirements : Option (List String) := none
deriving Repr, DecidableEq

structure WebResearchResult where
  query : String
  searchTime : Nat
  timestamp : String
  alternatives : List AlternativeDrug
  priceComparisons : List PriceComparison
  paStrategies : List PAStrategy
  patientPrograms : List String
  summary : String
  sources : List String
deriving Repr, DecidableEq

structure CoverageResponse where
  medication : Medication
  insurancePlan : InsurancePlan
  isCovered : Option Bool
  tier : Option Int
  estimatedCopay : Option EstimatedCopay
  priorAuth : PriorAuthRequirement
  alternativeMedications : Option (List SuggestedAlternative) := none
  webResearch : Option WebResearchResult := none
  lastUpdated : String
  disclaimer : String
deriving Repr, DecidableEq

/-! ## Formulary Index (backend/src/services/formularyService.ts) -/

structure FormularyEntry where
  generic_name : String
  brand_names : Option (List String) := none
  tier : Int
  copay : ℚ
  prior_auth : Bool
  prior_auth_criteria : Option String := none
  quantity_limits : Bool := false
  quantity_limit_details : Option String := none
  step_therapy : Bool := false
  step_therapy_alternatives : Option (List String) := none
  alternatives : Option (List String) := none
  specialty_pharmacy_required : Option Bool := none
  infusion_required : Option Bool := none
deriving Repr, DecidableEq

/-- One loaded plan file.  `formulary` is an association list preserving the
JSON key order, matching `Object.entries` iteration.  The `tier_structure`
and `coverage_policies` fields are not consulted by any embedded operation
and are omitted. -/
structure FormularyData where
  plan_id : String
  plan_name : String
  carrier : String
  planType : String
  formulary : List (String × FormularyEntry)
deriving Repr, DecidableEq

structure LookupResult where
  isFound : Bool
  entry : Option FormularyEntry := none
  matchedName : Option String := none
  formulary : Option FormularyData := none
deriving Repr, DecidableEq

/-- `this.formularies.get(planId)` over the loaded plans (insertion-ordered map). -/
def planLookup (formularies : List (String × FormularyData)) (planId : String) :
    Option FormularyData :=
  (formularies.find? (fun kv => kv.1 == planId)).map (·.2)

/-- Stage 1 predicate: `key.toLowerCase() === normalizedMedication`. -/
def exactKeyMatch (q : String) (kv : String × FormularyEntry) : Bool :=
  jsLower kv.1 == q

/-- Stage 2/3 predicate: inside one loop the source first tests
`entry.generic_name` (guarded by its truthiness) and then every member of
`entry.brand_names`, returning on the first entry where either hits. -/
def genericBrandMatch (q : String) (kv : String × FormularyEntry) : Bool :=
  (decide (kv.2.generic_name ≠ "") && (jsLower kv.2.generic_name == q)) ||
  (match kv.2.brand_names with
   | some bs => bs.any (fun b => jsLower b == q)
   | none => false)

/-- The static `commonMappings` brand→generic alias table. -/
def commonMappings : List (String × String) :=
  [("tylenol", "acetaminophen"),
   ("advil", "ibuprofen"),
   ("humira", "adalimumab"),
   ("lipitor", "atorvastatin"),
   ("prinivil", "lisinopril"),
   ("zestril", "lisinopril"),
   ("synthroid", "levothyroxine"),
   ("glucophage", "metformin"),
   ("prilosec", "omeprazole"),
   ("zoloft", "sertraline"),
   ("norvasc", "amlodipine")]

/-- `commonMappings[normalizedMedication]`. -/
def aliasLookup (q : String) : Option String :=
  (commonMappings.find? (fun kv => kv.1 == q)).map (·.2)

/-- Stage 5 predicate: `key.includes(q) || q.includes(key) || generic.includes(q)`
(with the same truthiness guard on `generic_name`). -/
def looseMatch (q : String) (kv : String × FormularyEntry) : Bool :=
  jsIncludes (jsLower kv.1) q || jsIncludes q (jsLower kv.1) ||
  (decide (kv.2.generic_name ≠ "") && jsIncludes (jsLower kv.2.generic_name) q)

/-- The `{isFound: true, entry, matchedName, formulary}` object. -/
def foundResult (fd : FormularyData) (kv : String × FormularyEntry) : LookupResult :=
  { isFound := true, entry := some kv.2, matchedName := some kv.1, formulary := some fd }

/-- `FormularyService.checkCoverage`, with explicit recursion fuel for the
alias stage's self-call.  Fuel 2 is exact: the static alias table's values
are never themselves alias keys (see `checkCoverageFuel_stable`). -/
def checkCoverageFuel : Nat → List (String × FormularyData) → String → String → LookupResult
  | 0, _, _, _ => { isFound := false }
  | fuel + 1, formularies, planId, medicationName =>
    match planLookup formularies planId with
    | none => { isFound := false }
    | some formulary =>
      match formulary.formulary.find? (exactKeyMatch (normalizeQuery medicationName)) with
      | some kv => foundResult formulary kv
      | none =>
        match formulary.formulary.find? (genericBrandMatch (normalizeQuery medicationName)) with
        | some kv => foundResult formulary kv
        | none =>
          match aliasLookup (normalizeQuery medicationName) with
          | some mapped => checkCoverageFuel fuel formularies planId mapped
          | none =>
            match formulary.formulary.find? (looseMatch (normalizeQuery medicationName)) with
            | some kv => foundResult formulary kv
            | none => { isFound := false, formulary := some formulary }

namespace FormularyService

/-- `FormularyService.checkCoverage(planId, medicationName)`. -/
def checkCoverage (formularies : List (String × FormularyData))
    (planId medicationName : String) : LookupResult :=
  checkCoverageFuel 2 formularies planId medicationName

end FormularyService

/-! ## Medication Normalizer (backend/src/services/groqService.ts and its .bak
backup variant).  The backend completion and JSON-parsing outcome is an oracle
value; the embedded code is everything the service does with it. -/

/-- The fields of the JSON object extracted from the model reply. -/
structure GroqParsedData where
  name : Option String := none
  genericName : Option String := none
  brandName : Option String := none
  strength : Option String := none
  dosageForm : Option String := none
  ndc : Option String := none
  confidence : Option ℚ := none
deriving Repr, DecidableEq

/-- Outcome of the live service's backend call and parse attempt. -/
inductive GroqOutcome where
  | noResponse
  | parsed (data : GroqParsedData) (usedTools : Bool)
  | parseFail
  | transportError (msg : String)
deriving Repr, DecidableEq

/-- The `try` block of the live `GroqService.normalizeMedication`. -/
def runGroqTry : GroqOutcome → Except String NormalizedMedicationResult
  | GroqOutcome.noResponse => Except.error "No response from Groq"
  | GroqOutcome.parseFail => Except.error "Invalid JSON response from Groq"
  | GroqOutcome.transportError m => Except.error m
  | GroqOutcome.parsed d tools =>
    match jsOrNone d.name with
    | none => Except.error "Missing medication name in Groq response"
    | some nm =>
      Except.ok
        { medication :=
            { name := nm
              genericName := some (jsOrStr d.genericName nm)
              brandName := d.brandName
              strength := d.strength
              dosageForm := some (jsOrStr d.dosageForm "tablet")
              ndc := d.ndc }
          confidence := jsOrQ d.confidence (mkRat 4 5)
          searchResults := if tools then some "Used web search for current data" else none }

namespace GroqService

/-- Live `GroqService.normalizeMedication`: the `catch` echoes the raw input
with confidence 0.1 unconditionally. -/
def normalizeMedication (userInput : String) (o : GroqOutcome) : NormalizedMedicationResult :=
  match runGroqTry o with
  | Except.ok r => r
  | Except.error e =>
    { medication :=
        { name := userInput
          genericName := some userInput
          strength := some "Unknown"
          dosageForm := some "tablet" }
      confidence := mkRat 1 10
      searchResults := some ("Error: " ++ e) }

end GroqService

/-- Outcome of the backup variant's backend call: it additionally has the
aggressive regex name-extraction fallback for unparseable replies. -/
inductive GroqBakOutcome where
  | noResponse
  | parsed (data : GroqParsedData) (usedTools : Bool)
  | nameExtract (extractedName : String) (usedTools : Bool)
  | extractFail
  | transportError (msg : String)
deriving Repr, DecidableEq

/-- Backup variant's invalid-marker test:
`medicationData.name === 'INVALID_MEDICATION' || medicationData.confidence < 0.2`
(the comparison is false when `confidence` is absent). -/
def groqBakInvalidMarker (d : GroqParsedData) : Bool :=
  (d.name == some "INVALID_MEDICATION") ||
  (match d.confidence with
   | some c => decide (c < mkRat 1 5)
   | none => false)

/-- Backup variant: what happens after `medicationData` has been obtained
(invalid-marker check, name validation, clamped confidence). -/
def groqBakFromData (userInput : String) (d : GroqParsedData) (tools : Bool) :
    Except String NormalizedMedicationResult :=
  if groqBakInvalidMarker d then
    Except.ok
      { medication :=
          { name := userInput
            genericName := some userInput
            strength := some "Unknown"
            dosageForm := some "unknown" }
        confidence := mkRat 1 10
        searchResults := some "Not recognized as a valid medication" }
  else
    match jsOrNone d.name with
    | none => Except.error "Missing medication name in Groq response"
    | some nm =>
      Except.ok
        { medication :=
            { name := nm
              genericName := some (jsOrStr d.genericName nm)
              brandName := d.brandName
              strength := some (jsOrStr d.strength "unknown")
              dosageForm := some (jsOrStr d.dosageForm "tablet")
              ndc := d.ndc }
          confidence := max (jsOrQ d.confidence (mkRat 4 5)) (mkRat 1 2)
          searchResults := if tools then some "Used web search for current data" else none }

/-- The `try` block of the backup `GroqService.normalizeMedication`
(groqService.ts.bak).  The regex fallback synthesizes a record with
confidence 0.8 before flowing into the same post-processing. -/
def runGroqBakTry (userInput : String) : GroqBakOutcome → Except String NormalizedMedicationResult
  | GroqBakOutcome.noResponse => Except.error "No response from Groq"
  | GroqBakOutcome.extractFail => Except.error "Unable to extract medication data from Groq response"
  | GroqBakOutcome.transportError m => Except.error m
  | GroqBakOutcome.parsed d tools => groqBakFromData userInput d tools
  | GroqBakOutcome.nameExtract n tools =>
    groqBakFromData userInput
      { name := some n
        genericName := some (jsLower n)
        strength := some "unknown"
        dosageForm := some "tablet"
        confidence := some (mkRat 4 5) } tools

/-- The five well-known generics the backup catch block recognises. -/
def commonMeds : List String :=
  ["lisinopril", "metformin", "atorvastatin", "omeprazole", "sertraline"]

namespace GroqServiceBak

/-- Backup `normalizeMedication`: its `catch` gives confidence 0.7 when the
raw input contains a `commonMeds` member, 0.2 otherwise. -/
def normalizeMedication (userInput : String) (o : GroqBakOutcome) : NormalizedMedicationResult :=
  match runGroqBakTry userInput o with
  | Except.ok r => r
  | Except.error e =>
    { medication :=
        { name := userInput
          genericName := some (jsLower userInput)
          strength := some "Unknown"
          dosageForm := some "tablet" }
      confidence := if commonMeds.any (fun med => jsIncludes (jsLower userInput) med) then mkRat 7 10 else mkRat 1 5
      searchResults := some ("Error: " ++ e) }

end GroqServiceBak

/-! ## Remote Coverage Resolver (timeout-enabled toolhouseService.ts) -/

/-- Abstract view of the response body: which of the layered parse attempts
succeed.  `hasBrace`/`hasJsonFence` model the fail-fast plain-text check;
`extractMatch` models whether the fence/brace regex found a candidate. -/
structure ToolhouseBody where
  hasBrace : Bool
  hasJsonFence : Bool
  directParse : Option ToolhouseCoverageResponse
  extractMatch : Bool
  extractParse : Option ToolhouseCoverageResponse
deriving Repr, DecidableEq

/-- Outcome of the single outbound `fetch` under the AbortController. -/
inductive ToolhouseFetchOutcome where
  | aborted
  | netError (msg : String)
  | httpResponse (ok : Bool) (status : Nat) (body : ToolhouseBody)
deriving Repr, DecidableEq

/-- The layered body parser: plain-text fail-fast, direct `JSON.parse`, then
fence/brace extraction, each failing with an explicit error. -/
def parseToolhouseBody (b : ToolhouseBody) : Except String ToolhouseCoverageResponse :=
  if !b.hasBrace && !b.hasJsonFence then
    Except.error "Toolhouse returned plain text, not JSON data"
  else
    match b.directParse with
    | some r => Except.ok r
    | none =>
      if b.extractMatch then
        match b.extractParse with
        | some r => Except.ok r
        | none => Except.error "Invalid JSON in response"
      else Except.error "No valid JSON found in response"

/-- The `try` block of `ToolhouseService.checkCoverage`: abort, network
failure, non-OK HTTP status and parse failures all throw. -/
def runToolhouseTry : ToolhouseFetchOutcome → Except String ToolhouseCoverageResponse
  | ToolhouseFetchOutcome.aborted => Except.error "AbortError"
  | ToolhouseFetchOutcome.netError m => Except.error m
  | ToolhouseFetchOutcome.httpResponse ok status body =>
    if !ok then Except.error ("HTTP error! status: " ++ toString status)
    else parseToolhouseBody body

/-- The synthetic response built in the resolver's `catch` block. -/
def toolhouseTimeoutFallback (elapsed : Nat) : ToolhouseCoverageResponse :=
  { is_covered := some false
    tier := none
    copay := none
    prior_auth_required := false
    prior_auth_details := none
    quantity_limits := false
    quantity_limit_details := none
    step_therapy_required := false
    step_therapy_alternatives := none
    suggested_alternatives := none
    pharmacy_notes := none
    explanation := "Toolhouse timeout after " ++ toString elapsed ++ "ms - using local formulary data"
    data_source := some "toolhouse_timeout" }

namespace ToolhouseService

/-- `ToolhouseService.checkCoverage`: returns the parsed agent response
verbatim, or the synthetic timeout fallback on any error. -/
def checkCoverage (fetchOutcome : ToolhouseFetchOutcome) (elapsed : Nat) :
    ToolhouseCoverageResponse :=
  match runToolhouseTry fetchOutcome with
  | Except.ok r => r
  | Except.error _ => toolhouseTimeoutFallback elapsed

end ToolhouseService

/-! ## Coverage Orchestrator (backend/src/services/coverageService.ts)

The oracle carries the settled outcomes of the three asynchronous
collaborators and the clock reads; the embedded code is the orchestrator's
own control flow.  `ragInvoked` records whether execution reached the point
where `toolhouseService.checkCoverage` is launched. -/

structure CoverageCheckRequest where
  medicationName : String
  insurancePlan : InsurancePlan
  patientZipCode : String
  pharmacyZipCode : String
  quantity : Option Nat := none
  daySupply : Option Nat := none
deriving Repr, DecidableEq

structure CoverageOracle where
  norm : Settled NormalizedMedicationResult
  localRes : Settled LookupResult
  rag : Settled ToolhouseCoverageResponse
  fastTime : Nat
  totalTime : Nat
  errTime : Nat
  now : String
deriving Repr, DecidableEq

/-- The fixed common-drugs allow-list of the fast path. -/
def commonDrugs : List String :=
  ["lisinopril", "metformin", "atorvastatin", "omeprazole", "sertraline",
   "amlodipine", "humira", "adalimumab"]

/-- `isCommonDrug`: name, generic name or brand name contains a member of
`commonDrugs` (case-insensitively; absent fields contribute false). -/
def isCommonDrugCheck (m : Medication) : Bool :=
  commonDrugs.any fun drug =>
    jsIncludes (jsLower m.name) (jsLower drug) ||
    (match m.genericName with
     | some g => jsIncludes (jsLower g) (jsLower drug)
     | none => false) ||
    (match m.brandName with
     | some b => jsIncludes (jsLower b) (jsLower drug)
     | none => false)

/-- Conversion of a found local formulary result into the Toolhouse shape
(the object literal both the fast path and the local-primary arbitration
branch build).  Reading `.entry!` on a result without an entry throws. -/
def localToToolhouse (medName carrier : String) (l : LookupResult) :
    Except String ToolhouseCoverageResponse :=
  match l.entry with
  | none => Except.error "TypeError: Cannot read properties of undefined"
  | some entry =>
    Except.ok
      { is_covered := some true
        tier := some entry.tier
        copay := some entry.copay
        prior_auth_required := entry.prior_auth
        prior_auth_details :=
          if entry.prior_auth then some "Prior authorization required by plan" else none
        quantity_limits := entry.quantity_limits
        quantity_limit_details := jsOrNone entry.quantity_limit_details
        step_therapy_required := entry.step_therapy
        step_therapy_alternatives := entry.step_therapy_alternatives
        suggested_alternatives := entry.alternatives.map (fun alts =>
          alts.map fun alt =>
            { name := alt
              tier := 1
              copay := 10
              prior_auth := false
              reason := "Lower-cost alternative to " ++ medName })
        pharmacy_notes := none
        explanation := "Found in local " ++ carrier ++ " formulary as " ++ optShow l.matchedName
        data_source := some "local_formulary_fast" }

/-- The synthesized both-sources-failed response. -/
def notFoundToolhouse (medName : String) : ToolhouseCoverageResponse :=
  { is_covered := some false
    tier := none
    copay := none
    prior_auth_required := false
    prior_auth_details := none
    quantity_limits := false
    quantity_limit_details := none
    step_therapy_required := false
    step_therapy_alternatives := none
    suggested_alternatives := none
    pharmacy_notes := none
    explanation := medName ++
      " not found in available formularies. Please contact your insurance provider for coverage details."
    data_source := some "not_found_parallel" }

/-- The arbitration guard on the remote result:
`fulfilled && is_covered !== null && tier !== null && data_source !== 'toolhouse_timeout'`. -/
def ragAcceptable : Settled ToolhouseCoverageResponse → Bool
  | Settled.fulfilled v =>
    v.is_covered.isSome && v.tier.isSome && !(v.data_source == some "toolhouse_timeout")
  | Settled.rejected _ => false

/-- The arbitration guard on the local result: `fulfilled && isFound`. -/
def localFound : Settled LookupResult → Bool
  | Settled.fulfilled l => l.isFound
  | Settled.rejected _ => false

/-- The `else`-branches of the arbitration: local-primary, then not-found. -/
def arbitrateLocal (medName carrier : String) (localResult : Settled LookupResult) :
    Except String (ToolhouseCoverageResponse × String) :=
  match localResult with
  | Settled.fulfilled l =>
    if l.isFound then
      (localToToolhouse medName carrier l).map (fun th => (th, "local_primary"))
    else Except.ok (notFoundToolhouse medName, "not_found")
  | Settled.rejected _ => Except.ok (notFoundToolhouse medName, "not_found")

/-- Source arbitration over the two settled results (coverageService.ts,
lines 141-204): remote first when acceptable, then local, then synthesized
not-found.  The second component is the `dataSource` tag the code logs. -/
def arbitrate (medName carrier : String) (localResult : Settled LookupResult)
    (ragResult : Settled ToolhouseCoverageResponse) :
    Except String (ToolhouseCoverageResponse × String) :=
  match ragResult with
  | Settled.fulfilled v =>
    if v.is_covered.isSome && v.tier.isSome && !(v.data_source == some "toolhouse_timeout") then
      Except.ok (v, "rag_primary")
    else arbitrateLocal medName carrier localResult
  | Settled.rejected _ => arbitrateLocal medName carrier localResult

/-- Prior-auth block of the response assembly. -/
def buildPriorAuth (th : ToolhouseCoverageResponse) : PriorAuthRequirement :=
  { required := th.prior_auth_required
    reason := jsOrNone th.prior_auth_details
    estimatedApprovalTime :=
      if th.prior_auth_required then some "1-3 business days" else none }

/-- Alternatives block: present only when the winning source carried a
non-empty list. -/
def buildAlternativeMedications (th : ToolhouseCoverageResponse) :
    Option (List SuggestedAlternative) :=
  match th.suggested_alternatives with
  | some alts =>
    if alts.length > 0 then
      some (alts.map fun alt =>
        { name := alt.name, tier := alt.tier, copay := alt.copay,
          prior_auth := alt.prior_auth, reason := alt.reason })
    else none
  | none => none

/-- Normalization confidence as the rounded percentage the disclaimers print. -/
def confidencePct (c : ℚ) : Int := mathRound (c * 100)

/-- Fast-path response assembly (coverageService.ts, lines 113-127), with its
own `copay ? {...} : null` truthiness test. -/
def fastResponse (med : Medication) (plan : InsurancePlan) (th : ToolhouseCoverageResponse)
    (fastTime : Nat) (conf : ℚ) (now : String) : CoverageResponse :=
  { medication := med
    insurancePlan := plan
    isCovered := th.is_covered
    tier := th.tier
    estimatedCopay :=
      match th.copay with
      | some c => if c = 0 then none else some { min := c, max := c, currency := "USD" }
      | none => none
    priorAuth := buildPriorAuth th
    alternativeMedications := buildAlternativeMedications th
    lastUpdated := now
    disclaimer := "Fast local lookup completed in " ++ toString fastTime ++
      "ms. Medication normalized with " ++ toString (confidencePct conf) ++
      "% confidence. " ++ th.explanation }

/-- Arbitration-path response assembly (coverageService.ts, lines 233-247),
with its own `copay ? {...} : null` truthiness test. -/
def arbitrationResponse (med : Medication) (plan : InsurancePlan)
    (th : ToolhouseCoverageResponse) (totalTime : Nat) (conf : ℚ) (now : String) :
    CoverageResponse :=
  { medication := med
    insurancePlan := plan
    isCovered := th.is_covered
    tier := th.tier
    estimatedCopay :=
      match th.copay with
      | some c => if c = 0 then none else some { min := c, max := c, currency := "USD" }
      | none => none
    priorAuth := buildPriorAuth th
    alternativeMedications := buildAlternativeMedications th
    lastUpdated := now
    disclaimer := "AI-powered coverage check completed in " ++ toString totalTime ++
      "ms. Medication normalized with " ++ toString (confidencePct conf) ++
      "% confidence. " ++ th.explanation }

/-- The low-confidence rejection response (coverageService.ts, lines 30-46). -/
def rejectionResponse (req : CoverageCheckRequest) (now : String) : CoverageResponse :=
  { medication :=
      { name := req.medicationName
        genericName := some "Unknown"
        strength := some "Unknown"
        dosageForm := some "unknown" }
    insurancePlan := req.insurancePlan
    isCovered := some false
    tier := none
    estimatedCopay := none
    priorAuth := { required := false }
    lastUpdated := now
    disclaimer := "\"" ++ req.medicationName ++
      "\" is not recognized as a valid medication. Please check the spelling or consult with your healthcare provider." }

/-- The top-level catch's fallback response (coverageService.ts, lines 257-271);
`msg` is the caught error's message. -/
def fallbackResponse (req : CoverageCheckRequest) (errTime : Nat) (msg : String)
    (now : String) : CoverageResponse :=
  { medication :=
      { name := req.medicationName
        genericName := some req.medicationName }
    insurancePlan := req.insurancePlan
    isCovered := some false
    tier := none
    estimatedCopay := none
    priorAuth := { required := false }
    lastUpdated := now
    disclaimer := "Error checking coverage after " ++ toString errTime ++ "ms: " ++ msg ++
      ". Please verify with your insurance provider." }

structure CoverageOutcome where
  response : CoverageResponse
  ragInvoked : Bool
deriving Repr, DecidableEq

namespace CoverageService

/-- The arbitration path: launch the remote call, settle both, arbitrate,
assemble.  An error thrown while converting the local winner propagates with
`ragInvoked = true`. -/
def arbitrationStep (req : CoverageCheckRequest) (nr : NormalizedMedicationResult)
    (o : CoverageOracle) : Except (String × Bool) CoverageOutcome :=
  match arbitrate nr.medication.name req.insurancePlan.carrier o.localRes o.rag with
  | Except.error e => Except.error (e, true)
  | Except.ok (th, _dataSource) =>
    Except.ok
      { response := arbitrationResponse nr.medication req.insurancePlan th o.totalTime nr.confidence o.now
        ragInvoked := true }

/-- The `try` block of `CoverageService.checkCoverage`: normalization gate,
optional fast path, then arbitration. -/
def checkCoverageInner (req : CoverageCheckRequest) (o : CoverageOracle) :
    Except (String × Bool) CoverageOutcome :=
  match o.norm with
  | Settled.rejected r => Except.error (r, false)
  | Settled.fulfilled nr =>
    if nr.confidence < mkRat 3 10 then
      Except.ok { response := rejectionResponse req o.now, ragInvoked := false }
    else if isCommonDrugCheck nr.medication = true ∧ nr.confidence > mkRat 9 10 then
      match o.localRes with
      | Settled.rejected r => Except.error (r, false)
      | Settled.fulfilled localResult =>
        if localResult.isFound then
          match localToToolhouse nr.medication.name req.insurancePlan.carrier localResult with
          | Except.error e => Except.error (e, false)
          | Except.ok th =>
            Except.ok
              { response := fastResponse nr.medication req.insurancePlan th o.fastTime nr.confidence o.now
                ragInvoked := false }
        else arbitrationStep req nr o
    else arbitrationStep req nr o

/-- `CoverageService.checkCoverage` with the invocation trace: the top-level
catch converts any pipeline error into the fallback response. -/
def checkCoverageT (req : CoverageCheckRequest) (o : CoverageOracle) : CoverageOutcome :=
  match checkCoverageInner req o with
  | Except.ok r => r
  | Except.error (msg, ragInvoked) =>
    { response := fallbackResponse req o.errTime msg o.now, ragInvoked := ragInvoked }

/-- `CoverageService.checkCoverage(request)`. -/
def checkCoverage (req : CoverageCheckRequest) (o : CoverageOracle) : CoverageResponse :=
  (checkCoverageT req o).response

end CoverageService

/-! ## Web-research-enabled orchestrator (the CoverageService variant embedded
in webResearchService.ts, with `includeWebResearch`). -/

/-- The three augmentation operations of the Web Research Augmenter. -/
inductive AugOp where
  | findAlternatives
  | researchPAStrategies
  | findPriceComparison
deriving Repr, DecidableEq

structure WRRequest where
  medicationName : String
  insurancePlan : InsurancePlan
  patientZipCode : String
  pharmacyZipCode : String
  quantity : Option Nat := none
  daySupply : Option Nat := none
  includeWebResearch : Bool := false
deriving Repr, DecidableEq

/-- Oracle for the web-research orchestrator: `aug` maps each operation to the
settled outcome its call would have. -/
structure WROracle where
  norm : Settled NormalizedMedicationResult
  localRes : Settled LookupResult
  rag : Settled ToolhouseCoverageResponse
  aug : AugOp → Settled WebResearchResult
  totalTime : Nat
  errTime : Nat
  now : String

/-- Fast-path augmentation choice (webResearchService.ts, lines 651-658):
`if (copay > 50 || prior_auth_required) findAlternatives`, no other branch. -/
def chooseAugFast (th : ToolhouseCoverageResponse) : Option AugOp :=
  if (match th.copay with
      | some c => decide (c > 50)
      | none => false) || th.prior_auth_required then
    some AugOp.findAlternatives
  else none

/-- Arbitration-path augmentation choice (webResearchService.ts, lines
787-800): alternatives when not covered or copay truthy and above 100, else
PA strategies when required, else price comparison. -/
def chooseAugArbitration (th : ToolhouseCoverageResponse) : AugOp :=
  if !(match th.is_covered with
       | some b => b
       | none => false) ||
     (match th.copay with
      | some c => decide (c ≠ 0) && decide (c > 100)
      | none => false) then
    AugOp.findAlternatives
  else if th.prior_auth_required then AugOp.researchPAStrategies
  else AugOp.findPriceComparison

/-- Running the chosen augmentation inside its `try`/`catch`: a rejection
leaves `webResearch` undefined and the pipeline continues. -/
def runAugment (op : AugOp) (aug : AugOp → Settled WebResearchResult) :
    Option WebResearchResult :=
  match aug op with
  | Settled.fulfilled r => some r
  | Settled.rejected _ => none

/-- Fast-path disclaimer suffix added when web research ran. -/
def wrFastSuffix : Option WebResearchResult → String
  | some w => " Web research included " ++ toString w.alternatives.length ++
      " additional alternatives."
  | none => ""

/-- Arbitration-path disclaimer suffix added when web research ran. -/
def wrArbSuffix : Option WebResearchResult → String
  | some w => " Web research found " ++ toString w.alternatives.length ++
      " additional alternatives and " ++ toString w.priceComparisons.length ++
      " price comparisons."
  | none => ""

/-- Fast-path response assembly of the web-research variant (its disclaimer
re-reads the clock after the research step). -/
def wrFastResponse (med : Medication) (plan : InsurancePlan) (th : ToolhouseCoverageResponse)
    (webResearch : Option WebResearchResult) (totalTime : Nat) (conf : ℚ) (now : String) :
    CoverageResponse :=
  { medication := med
    insurancePlan := plan
    isCovered := th.is_covered
    tier := th.tier
    estimatedCopay :=
      match th.copay with
      | some c => if c = 0 then none else some { min := c, max := c, currency := "USD" }
      | none => none
    priorAuth := buildPriorAuth th
    alternativeMedications := buildAlternativeMedications th
    webResearch := webResearch
    lastUpdated := now
    disclaimer := "Fast local lookup completed in " ++ toString totalTime ++
      "ms. Medication normalized with " ++ toString (confidencePct conf) ++
      "% confidence. " ++ th.explanation ++ wrFastSuffix webResearch }

/-- Arbitration-path response assembly of the web-research variant. -/
def wrArbitrationResponse (med : Medication) (plan : InsurancePlan)
    (th : ToolhouseCoverageResponse) (webResearch : Option WebResearchResult)
    (finalTime : Nat) (conf : ℚ) (now : String) : CoverageResponse :=
  { medication := med
    insurancePlan := plan
    isCovered := th.is_covered
    tier := th.tier
    estimatedCopay :=
      match th.copay with
      | some c => if c = 0 then none else some { min := c, max := c, currency := "USD" }
      | none => none
    priorAuth := buildPriorAuth th
    alternativeMedications := buildAlternativeMedications th
    webResearch := webResearch
    lastUpdated := now
    disclaimer := "AI-powered coverage check completed in " ++ toString finalTime ++
      "ms. Medication normalized with " ++ toString (confidencePct conf) ++
      "% confidence. " ++ th.explanation ++ wrArbSuffix webResearch }

/-- Outcome of the web-research orchestrator, with the augmentation trace. -/
structure WROutcome where
  response : CoverageResponse
  ragInvoked : Bool
  augChosen : Option AugOp

def wrRejectionResponse (req : WRRequest) (now : String) : CoverageResponse :=
  { medication :=
      { name := req.medicationName
        genericName := some "Unknown"
        strength := some "Unknown"
        dosageForm := some "unknown" }
    insurancePlan := req.insurancePlan
    isCovered := some false
    tier := none
    estimatedCopay := none
    priorAuth := { required := false }
    lastUpdated := now
    disclaimer := "\"" ++ req.medicationName ++
      "\" is not recognized as a valid medication. Please check the spelling or consult with your healthcare provider." }

def wrFallbackResponse (req : WRRequest) (errTime : Nat) (msg : String) (now : String) :
    CoverageResponse :=
  { medication :=
      { name := req.medicationName
        genericName := some req.medicationName }
    insurancePlan := req.insurancePlan
    isCovered := some false
    tier := none
    estimatedCopay := none
    priorAuth := { required := false }
    lastUpdated := now
    disclaimer := "Error checking coverage after " ++ toString errTime ++ "ms: " ++ msg ++
      ". Please verify with your insurance provider." }

namespace CoverageServiceWR

/-- Arbitration path of the web-research variant: arbitrate, optionally run
exactly one augmentation (tolerating its failure), assemble. -/
def arbitrationStep (req : WRRequest) (nr : NormalizedMedicationResult) (o : WROracle) :
    Except (String × Bool) WROutcome :=
  match arbitrate nr.medication.name req.insurancePlan.carrier o.localRes o.rag with
  | Except.error e => Except.error (e, true)
  | Except.ok (th, _dataSource) =>
    match (if req.includeWebResearch then some (chooseAugArbitration th) else none) with
    | some op =>
      Except.ok
        { response := wrArbitrationResponse nr.medication req.insurancePlan th
            (runAugment op o.aug) o.totalTime nr.confidence o.now
          ragInvoked := true
          augChosen := some op }
    | none =>
      Except.ok
        { response := wrArbitrationResponse nr.medication req.insurancePlan th none
            o.totalTime nr.confidence o.now
          ragInvoked := true
          augChosen := none }

/-- The `try` block of the web-research `CoverageService.checkCoverage`. -/
def checkCoverageInner (req : WRRequest) (o : WROracle) : Except (String × Bool) WROutcome :=
  match o.norm with
  | Settled.rejected r => Except.error (r, false)
  | Settled.fulfilled nr =>
    if nr.confidence < mkRat 3 10 then
      Except.ok { response := wrRejectionResponse req o.now, ragInvoked := false, augChosen := none }
    else if isCommonDrugCheck nr.medication = true ∧ nr.confidence > mkRat 9 10 then
      match o.localRes with
      | Settled.rejected r => Except.error (r, false)
      | Settled.fulfilled localResult =>
        if localResult.isFound then
          match localToToolhouse nr.medication.name req.insurancePlan.carrier localResult with
          | Except.error e => Except.error (e, false)
          | Except.ok th =>
            match (if req.includeWebResearch then chooseAugFast th else none) with
            | some op =>
              Except.ok
                { response := wrFastResponse nr.medication req.insurancePlan th
                    (runAugment op o.aug) o.totalTime nr.confidence o.now
                  ragInvoked := false
                  augChosen := some op }
            | none =>
              Except.ok
                { response := wrFastResponse nr.medication req.insurancePlan th none
                    o.totalTime nr.confidence o.now
                  ragInvoked := false
                  augChosen := none }
        else arbitrationStep req nr o
    else arbitrationStep req nr o

/-- The web-research `CoverageService.checkCoverage` with trace. -/
def checkCoverageT (req : WRRequest) (o : WROracle) : WROutcome :=
  match checkCoverageInner req o with
  | Except.ok r => r
  | Except.error (msg, ragInvoked) =>
    { response := wrFallbackResponse req o.errTime msg o.now
      ragInvoked := ragInvoked
      augChosen := none }

def checkCoverage (req : WRRequest) (o : WROracle) : CoverageResponse :=
  (checkCoverageT req o).response

end CoverageServiceWR


/-! ## Concrete fixtures for witnesses and counterexamples -/

def samplePlan : InsurancePlan :=
  { id := "aetna-choice-pos", name := "Aetna Choice POS II", carrier := "Aetna", planType := "POS" }

def sampleReq : CoverageCheckRequest :=
  { medicationName := "xk29qzrandom", insurancePlan := samplePlan
    patientZipCode := "94105", pharmacyZipCode := "94105" }

def lowConfNr : NormalizedMedicationResult :=
  { medication := { name := "xk29qzrandom" }, confidence := mkRat 1 10 }

def lowConfOracle : CoverageOracle :=
  { norm := Settled.fulfilled lowConfNr
    localRes := Settled.rejected "unused"
    rag := Settled.rejected "unused"
    fastTime := 0, totalTime := 0, errTime := 0, now := "t0" }

def errReq : CoverageCheckRequest :=
  { medicationName := "humira", insurancePlan := samplePlan
    patientZipCode := "94105", pharmacyZipCode := "94105" }

def errOracle : CoverageOracle :=
  { norm := Settled.rejected "Groq backend unavailable"
    localRes := Settled.rejected "unused"
    rag := Settled.rejected "unused"
    fastTime := 0, totalTime := 0, errTime := 742, now := "t0" }


def c5ParsedData : GroqParsedData :=
  { name := some "Atorvastatin", genericName := some "atorvastatin",
    confidence := some (mkRat 3 10) }

def c5Outcome : GroqOutcome := GroqOutcome.parsed c5ParsedData false

def c5BakData : GroqParsedData :=
  { name := some "Atorvastatin", confidence := some (mkRat 3 10) }

def c5BakOutcome : GroqBakOutcome := GroqBakOutcome.parsed c5BakData false


/-- Which source the arbitration selected, read off the `dataSource` tag. -/
def selectedSource (r : Except String (ToolhouseCoverageResponse × String)) : Option String :=
  match r with
  | Except.ok (_, ds) => some ds
  | Except.error _ => none

def c1Entry : FormularyEntry :=
  { generic_name := "adalimumab", brand_names := some ["Humira"], tier := 4, copay := 100,
    prior_auth := true }

def c1LocalR : Settled LookupResult :=
  Settled.fulfilled { isFound := true, entry := some c1Entry, matchedName := some "humira" }

def c1RagTimeout : Settled ToolhouseCoverageResponse :=
  Settled.fulfilled (toolhouseTimeoutFallback 5000)


/-- Sanity predicate on loaded data: every listed brand name is non-empty. -/
def brandNamesNonempty (e : FormularyEntry) : Bool :=
  match e.brand_names with
  | some bs => bs.all (fun b => b != "")
  | none => true

def c9Entry : FormularyEntry :=
  { generic_name := "acetaminophen", brand_names := some ["Tylenol"], tier := 1, copay := 10,
    prior_auth := false }

def c9Formulary : FormularyData :=
  { plan_id := "aetna-choice-pos", plan_name := "Aetna Choice POS II", carrier := "Aetna",
    planType := "POS", formulary := [("acetaminophen", c9Entry)] }

def c9Plans : List (String × FormularyData) := [("aetna-choice-pos", c9Formulary)]


/-- Stage-2-only predicate of the specification's reading: generic-name match. -/
def genericOnlyMatch (q : String) (kv : String × FormularyEntry) : Bool :=
  decide (kv.2.generic_name ≠ "") && (jsLower kv.2.generic_name == q)

/-- Stage-3-only predicate of the specification's reading: brand-name match. -/
def brandOnlyMatch (q : String) (kv : String × FormularyEntry) : Bool :=
  match kv.2.brand_names with
  | some bs => bs.any (fun b => jsLower b == q)
  | none => false

/-- Spec-worded lookup, for comparison with the embedded one: it reads the
specification's stages 2 and 3 as two separate ordered sweeps — every
generic-name comparison before any brand-name comparison.  The source instead
performs both tests entry by entry in a single pass. -/
def specOrderedLookupFuel : Nat → List (String × FormularyData) → String → String → LookupResult
  | 0, _, _, _ => { isFound := false }
  | fuel + 1, formularies, planId, medicationName =>
    match planLookup formularies planId with
    | none => { isFound := false }
    | some formulary =>
      match formulary.formulary.find? (exactKeyMatch (normalizeQuery medicationName)) with
      | some kv => foundResult formulary kv
      | none =>
        match formulary.formulary.find? (genericOnlyMatch (normalizeQuery medicationName)) with
        | some kv => foundResult formulary kv
        | none =>
          match formulary.formulary.find? (brandOnlyMatch (normalizeQuery medicationName)) with
          | some kv => foundResult formulary kv
          | none =>
            match aliasLookup (normalizeQuery medicationName) with
            | some mapped => specOrderedLookupFuel fuel formularies planId mapped
            | none =>
              match formulary.formulary.find? (looseMatch (normalizeQuery medicationName)) with
              | some kv => foundResult formulary kv
              | none => { isFound := false, formulary := some formulary }

def specOrderedLookup : List (String × FormularyData) → String → String → LookupResult :=
  specOrderedLookupFuel 2

def c7EntryOne : FormularyEntry :=
  { generic_name := "genone", brand_names := some ["Target"], tier := 1, copay := 5,
    prior_auth := false }

def c7EntryTwo : FormularyEntry :=
  { generic_name := "target", tier := 2, copay := 20, prior_auth := false }

def c7Formulary : FormularyData :=
  { plan_id := "plan-x", plan_name := "Plan X", carrier := "X", planType := "PPO",
    formulary := [("drugone", c7EntryOne), ("drugtwo", c7EntryTwo)] }

def c7Plans : List (String × FormularyData) := [("plan-x", c7Formulary)]

def c8FastTh : ToolhouseCoverageResponse :=
  { is_covered := some true, tier := some 2, copay := some 30, prior_auth_required := true,
    prior_auth_details := some "Prior authorization required by plan", quantity_limits := false,
    quantity_limit_details := none, step_therapy_required := false,
    step_therapy_alternatives := none, suggested_alternatives := none, pharmacy_notes := none,
    explanation := "Found in local Aetna formulary as humira",
    data_source := some "local_formulary_fast" }

def c8RagTh : ToolhouseCoverageResponse :=
  { is_covered := some true, tier := some 4, copay := some 120, prior_auth_required := true,
    prior_auth_details := some "PA required", quantity_limits := false,
    quantity_limit_details := none, step_therapy_required := false,
    step_therapy_alternatives := none, suggested_alternatives := none, pharmacy_notes := none,
    explanation := "Covered at tier 4", data_source := some "toolhouse_rag" }

def c8Req : WRRequest :=
  { medicationName := "humira", insurancePlan := samplePlan
    patientZipCode := "94105", pharmacyZipCode := "94105", includeWebResearch := true }

def c8Nr : NormalizedMedicationResult :=
  { medication := { name := "humira" }, confidence := mkRat 4 5 }

def c8Oracle : WROracle :=
  { norm := Settled.fulfilled c8Nr
    localRes := Settled.rejected "local lookup rejected"
    rag := Settled.fulfilled c8RagTh
    aug := fun _ => Settled.rejected "research failed"
    totalTime := 100, errTime := 100, now := "t0" }


/-- The xarelto entry of the shipped aetna-choice-pos plan file: note the
empty string among its brand names. -/
def aetnaXarelto : FormularyEntry :=
  { generic_name := "rivaroxaban", brand_names := some [""], tier := 3, copay := 60,
    prior_auth := true,
    prior_auth_criteria := some "Must try warfarin first unless contraindicated",
    quantity_limits := false, step_therapy := true,
    step_therapy_alternatives := some ["warfarin"],
    alternatives := some ["eliquis", "pradaxa"] }

/-- The shipped aetna-choice-pos plan file, embedded with its formulary keys
in JSON order. -/
def aetnaChoicePos : FormularyData :=
  { plan_id := "aetna-choice-pos", plan_name := "Aetna Choice POS II", carrier := "Aetna",
    planType := "POS",
    formulary :=
      [("acetaminophen",
        { generic_name := "acetaminophen", brand_names := some ["Tylenol"], tier := 1,
          copay := 10, prior_auth := false,
          alternatives := some ["ibuprofen", "aspirin"] }),
       ("lisinopril",
        { generic_name := "lisinopril", brand_names := some ["Prinivil", "Zestril"], tier := 1,
          copay := 10, prior_auth := false,
          alternatives := some ["enalapril", "captopril", "losartan"] }),
       ("atorvastatin",
        { generic_name := "atorvastatin", brand_names := some ["Lipitor"], tier := 1,
          copay := 10, prior_auth := false,
          alternatives := some ["simvastatin", "rosuvastatin"] }),
       ("metformin",
        { generic_name := "metformin", brand_names := some ["Glucophage"], tier := 1,
          copay := 10, prior_auth := false,
          alternatives := some ["glyburide", "glipizide"] }),
       ("omeprazole",
        { generic_name := "omeprazole", brand_names := some ["Prilosec"], tier := 1,
          copay := 10, prior_auth := false, quantity_limits := true,
          quantity_limit_details := some "30 tablets per 30 days",
          alternatives := some ["esomeprazole", "lansoprazole"] }),
       ("sertraline",
        { generic_name := "sertraline", brand_names := some ["Zoloft"], tier := 1,
          copay := 10, prior_auth := false,
          alternatives := some ["fluoxetine", "escitalopram"] }),
       ("amlodipine",
        { generic_name := "amlodipine", brand_names := some ["Norvasc"], tier := 1,
          copay := 10, prior_auth := false,
          alternatives := some ["nifedipine", "diltiazem"] }),
       ("hydrochlorothiazide",
        { generic_name := "hydrochlorothiazide", brand_names := some ["Microzide"], tier := 1,
          copay := 10, prior_auth := false,
          alternatives := some ["chlorthalidone", "indapamide"] }),
       ("levothyroxine",
        { generic_name := "levothyroxine", brand_names := some ["Synthroid", "Levoxyl"],
          tier := 2, copay := 30, prior_auth := false,
          alternatives := some ["liothyronine"] }),
       ("symbicort",
        { generic_name := "budesonide/formoterol", brand_names := some ["Symbicort"],
          tier := 2, copay := 30, prior_auth := true,
          prior_auth_criteria := some "Must try generic albuterol first",
          quantity_limits := true,
          quantity_limit_details := some "2 inhalers per 30 days",
          step_therapy := true,
          step_therapy_alternatives := some ["albuterol", "fluticasone"],
          alternatives := some ["advair", "dulera"] }),
       ("humira",
        { generic_name := "adalimumab", brand_names := some ["Humira"], tier := 4,
          copay := 100, prior_auth := true,
          prior_auth_criteria :=
            some "Must try methotrexate and sulfasalazine first, documented RA diagnosis",
          quantity_limits := true,
          quantity_limit_details := some "2 pens per 28 days",
          step_therapy := true,
          step_therapy_alternatives := some ["methotrexate", "sulfasalazine"],
          alternatives := some ["enbrel", "remicade"],
          specialty_pharmacy_required := some true }),
       ("xarelto", aetnaXarelto)] }

def aetnaPlans : List (String × FormularyData) := [("aetna-choice-pos", aetnaChoicePos)]

/-! ## Supporting lemmas -/

/-- Every value of the static alias table, after re-normalisation, misses the
alias table again: the source's recursive re-lookup happens at most once. -/
lemma aliasLookup_mapped_none {q v : String} (h : aliasLookup q = some v) :
    aliasLookup (normalizeQuery v) = none := by
  have hv : v ∈ commonMappings.map Prod.snd := by
    unfold aliasLookup at h
    cases hfind : commonMappings.find? (fun kv => kv.1 == q) with
    | none => simp [hfind] at h
    | some kv =>
      have hmem := List.mem_of_find?_eq_some hfind
      simp only [hfind, Option.map_some', Option.some.injEq] at h
      exact h ▸ List.mem_map_of_mem Prod.snd hmem
  have hall : ∀ w ∈ commonMappings.map Prod.snd, aliasLookup (normalizeQuery w) = none := by
    decide
  exact hall v hv

/-- If the normalized query misses the alias table, one unit of fuel already
computes the lookup. -/
lemma checkCoverageFuel_succ_of_no_alias
    (formularies : List (String × FormularyData)) (planId medicationName : String)
    (h : aliasLookup (normalizeQuery medicationName) = none) (n : Nat) :
    checkCoverageFuel (n + 1) formularies planId medicationName =
      checkCoverageFuel 1 formularies planId medicationName := by
  unfold checkCoverageFuel
  split
  · rfl
  · split
    · rfl
    · split
      · rfl
      · split
        · next _ heq => rw [h] at heq; exact Option.noConfusion heq
        · rfl

/-- Two units of fuel are exact for the embedded lookup: adding fuel never
changes the result, so `FormularyService.checkCoverage` agrees with the
source's unbounded recursion. -/
lemma checkCoverageFuel_stable
    (formularies : List (String × FormularyData)) (planId medicationName : String) (n : Nat) :
    checkCoverageFuel (n + 2) formularies planId medicationName =
      FormularyService.checkCoverage formularies planId medicationName := by
  unfold FormularyService.checkCoverage
  unfold checkCoverageFuel
  split
  · rfl
  · split
    · rfl
    · split
      · rfl
      · split
        · next mapped heq =>
          exact checkCoverageFuel_succ_of_no_alias formularies planId mapped
            (aliasLookup_mapped_none heq) n
        · rfl

lemma jsIncludes_append_right (a b s : String) (h : jsIncludes b s = true) :
    jsIncludes (a ++ b) s = true := by
  unfold jsIncludes at h ⊢
  rw [decide_eq_true_iff] at h ⊢
  obtain ⟨u, v, huv⟩ := h
  exact ⟨a.data ++ u, v, by rw [String.data_append, ← huv]; simp⟩

lemma jsIncludes_append_left (a b : String) : jsIncludes (a ++ b) a = true := by
  unfold jsIncludes
  rw [decide_eq_true_iff]
  exact ⟨[], b.data, by rw [String.data_append]; simp⟩

lemma append_ne_empty_of_right (a b : String) (h : b ≠ "") : a ++ b ≠ "" := by
  intro hab
  apply h
  have hdata : (a ++ b).data = [] := by rw [hab]
  rw [String.data_append] at hdata
  exact String.ext ((List.append_eq_nil.mp hdata).2)

lemma jsLower_eq_empty_iff (s : String) : jsLower s = "" ↔ s = "" := by
  constructor
  · intro h
    have : (jsLower s).data = [] := by rw [h]
    unfold jsLower at this
    exact String.ext (List.map_eq_nil_iff.mp this)
  · intro h
    rw [h]
    rfl


/-- One-step unfolding of the embedded formulary lookup. -/
lemma checkCoverage_unfold (fs : List (String × FormularyData)) (p m : String) :
    FormularyService.checkCoverage fs p m =
      match planLookup fs p with
      | none => { isFound := false }
      | some formulary =>
        match formulary.formulary.find? (exactKeyMatch (normalizeQuery m)) with
        | some kv => foundResult formulary kv
        | none =>
          match formulary.formulary.find? (genericBrandMatch (normalizeQuery m)) with
          | some kv => foundResult formulary kv
          | none =>
            match aliasLookup (normalizeQuery m) with
            | some mapped => checkCoverageFuel 1 fs p mapped
            | none =>
              match formulary.formulary.find? (looseMatch (normalizeQuery m)) with
              | some kv => foundResult formulary kv
              | none => { isFound := false, formulary := some formulary } := rfl

/-! ## Claim theorems -/

/-- C4: the remote resolver's `checkCoverage` never raises: on timeout or any
transport or parse error it returns the synthetic response with
`is_covered = false`, `tier = null`, `copay = null`, all boolean flags false,
`data_source = "toolhouse_timeout"` and an explanation stating the elapsed
time. -/
theorem toolhouse_error_fallback (fetchOutcome : ToolhouseFetchOutcome) (elapsed : Nat)
    (e : String) (herr : runToolhouseTry fetchOutcome = Except.error e) :
    ToolhouseService.checkCoverage fetchOutcome elapsed = toolhouseTimeoutFallback elapsed
  ∧ (toolhouseTimeoutFallback elapsed).is_covered = some false
  ∧ (toolhouseTimeoutFallback elapsed).tier = none
  ∧ (toolhouseTimeoutFallback elapsed).copay = none
  ∧ (toolhouseTimeoutFallback elapsed).prior_auth_required = false
  ∧ (toolhouseTimeoutFallback elapsed).quantity_limits = false
  ∧ (toolhouseTimeoutFallback elapsed).step_therapy_required = false
  ∧ (toolhouseTimeoutFallback elapsed).data_source = some "toolhouse_timeout"
  ∧ (toolhouseTimeoutFallback elapsed).explanation =
      "Toolhouse timeout after " ++ toString elapsed ++ "ms - using local formulary data" := by
  refine ⟨?_, rfl, rfl, rfl, rfl, rfl, rfl, rfl, rfl⟩
  unfold ToolhouseService.checkCoverage
  rw [herr]

theorem toolhouse_error_fallback_witness :
    runToolhouseTry ToolhouseFetchOutcome.aborted = Except.error "AbortError"
  ∧ ToolhouseService.checkCoverage ToolhouseFetchOutcome.aborted 5003 =
      toolhouseTimeoutFallback 5003 :=
  ⟨rfl, (toolhouse_error_fallback ToolhouseFetchOutcome.aborted 5003 "AbortError" rfl).1⟩

/-- C2: whenever normalization fulfills with confidence below 0.3, the
orchestrator returns the rejection response (isCovered false, tier null,
estimatedCopay null, priorAuth not required, not-recognized disclaimer) and
never launches the remote resolver. -/
theorem lowConfidence_rejected (req : CoverageCheckRequest) (o : CoverageOracle)
    (nr : NormalizedMedicationResult) (hn : o.norm = Settled.fulfilled nr)
    (hc : nr.confidence < mkRat 3 10) :
    CoverageService.checkCoverageT req o =
      { response := rejectionResponse req o.now, ragInvoked := false }
  ∧ (rejectionResponse req o.now).isCovered = some false
  ∧ (rejectionResponse req o.now).tier = none
  ∧ (rejectionResponse req o.now).estimatedCopay = none
  ∧ (rejectionResponse req o.now).priorAuth.required = false
  ∧ jsIncludes (rejectionResponse req o.now).disclaimer
      "is not recognized as a valid medication" = true := by
  refine ⟨?_, rfl, rfl, rfl, rfl, ?_⟩
  · unfold CoverageService.checkCoverageT CoverageService.checkCoverageInner
    rw [hn]
    simp only [if_pos hc]
  · show jsIncludes ("\"" ++ req.medicationName ++
      "\" is not recognized as a valid medication. Please check the spelling or consult with your healthcare provider.")
      "is not recognized as a valid medication" = true
    rw [String.append_assoc]
    exact jsIncludes_append_right _ _ _ (jsIncludes_append_right _ _ _ (by decide))

theorem lowConfidence_rejected_witness :
    lowConfOracle.norm = Settled.fulfilled lowConfNr
  ∧ lowConfNr.confidence < mkRat 3 10
  ∧ CoverageService.checkCoverageT sampleReq lowConfOracle =
      { response := rejectionResponse sampleReq "t0", ragInvoked := false } :=
  ⟨rfl, by decide,
    (lowConfidence_rejected sampleReq lowConfOracle lowConfNr rfl (by decide)).1⟩

/-- C3: the orchestrator never propagates an exception: any error raised in
the pipeline is converted by the single top-level catch into the fallback
response with isCovered false, tier null, estimatedCopay null, priorAuth not
required, and a non-empty disclaimer stating the error and the elapsed time. -/
theorem orchestrator_catch_fallback (req : CoverageCheckRequest) (o : CoverageOracle)
    (msg : String) (ragI : Bool)
    (herr : CoverageService.checkCoverageInner req o = Except.error (msg, ragI)) :
    CoverageService.checkCoverage req o = fallbackResponse req o.errTime msg o.now
  ∧ (fallbackResponse req o.errTime msg o.now).isCovered = some false
  ∧ (fallbackResponse req o.errTime msg o.now).tier = none
  ∧ (fallbackResponse req o.errTime msg o.now).estimatedCopay = none
  ∧ (fallbackResponse req o.errTime msg o.now).priorAuth.required = false
  ∧ (fallbackResponse req o.errTime msg o.now).disclaimer =
      "Error checking coverage after " ++ toString o.errTime ++ "ms: " ++ msg ++
      ". Please verify with your insurance provider."
  ∧ (fallbackResponse req o.errTime msg o.now).disclaimer ≠ "" := by
  refine ⟨?_, rfl, rfl, rfl, rfl, rfl, ?_⟩
  · unfold CoverageService.checkCoverage CoverageService.checkCoverageT
    rw [herr]
  · exact append_ne_empty_of_right _ _ (by decide)

theorem orchestrator_catch_fallback_witness :
    CoverageService.checkCoverageInner errReq errOracle =
      Except.error ("Groq backend unavailable", false)
  ∧ CoverageService.checkCoverage errReq errOracle =
      fallbackResponse errReq 742 "Groq backend unavailable" "t0" :=
  ⟨rfl,
    (orchestrator_catch_fallback errReq errOracle "Groq backend unavailable" false rfl).1⟩

/-- C10: in both response-assembly sites (fast path and arbitration path), a
winning result whose copay is exactly 0 yields `estimatedCopay = none`,
exactly as when the copay is unknown (`null`): assembly guards on the
truthiness of the copay, not on it being non-null. -/
theorem zero_copay_reported_as_unknown (med : Medication) (plan : InsurancePlan)
    (th thNull : ToolhouseCoverageResponse) (t : Nat) (conf : ℚ) (now : String)
    (h0 : th.copay = some 0) (hnull : thNull.copay = none) :
    (fastResponse med plan th t conf now).estimatedCopay = none
  ∧ (arbitrationResponse med plan th t conf now).estimatedCopay = none
  ∧ (fastResponse med plan th t conf now).estimatedCopay =
      (fastResponse med plan thNull t conf now).estimatedCopay
  ∧ (arbitrationResponse med plan th t conf now).estimatedCopay =
      (arbitrationResponse med plan thNull t conf now).estimatedCopay := by
  unfold fastResponse arbitrationResponse
  simp only [h0, hnull]
  refine ⟨rfl, rfl, rfl, rfl⟩

theorem zero_copay_reported_as_unknown_witness :
    (notFoundToolhouse "humira").copay = none
  ∧ (toolhouseTimeoutFallback 1 : ToolhouseCoverageResponse).copay = none
  ∧ (fastResponse { name := "humira" }
      { id := "p", name := "P", carrier := "C", planType := "PPO" }
      { notFoundToolhouse "humira" with copay := some 0 } 10 (mkRat 9 10) "t0").estimatedCopay = none :=
  ⟨rfl, rfl,
    (zero_copay_reported_as_unknown { name := "humira" }
      { id := "p", name := "P", carrier := "C", planType := "PPO" }
      { notFoundToolhouse "humira" with copay := some 0 }
      (notFoundToolhouse "humira") 10 (mkRat 9 10) "t0" rfl rfl).1⟩

/-- C5 counterexample: in the live groqService.ts there is no 0.5
minimum-confidence floor: a structurally valid parse whose backend confidence
is 0.3 is reported with confidence 0.3 (the `|| 0.8` default applies only to
an absent or zero confidence). -/
theorem groq_confidence_floor_counterexample :
    runGroqTry c5Outcome =
      Except.ok (GroqService.normalizeMedication "atorvastatin" c5Outcome)
  ∧ (GroqService.normalizeMedication "atorvastatin" c5Outcome).confidence = mkRat 3 10
  ∧ ¬((GroqService.normalizeMedication "atorvastatin" c5Outcome).confidence ≥ mkRat 1 2) :=
  ⟨rfl, rfl, by decide⟩

/-- C5 (amended): the 0.5 confidence floor holds in the backup implementation
(groqService.ts.bak): every successful direct parse that is not the
invalid-marker case reports confidence at least 0.5 via the Math.max clamp.
The live groqService.ts reports the parsed backend confidence unclamped. -/
theorem groq_bak_confidence_floor (userInput : String) (d : GroqParsedData)
    (tools : Bool) (r : NormalizedMedicationResult)
    (hvalid : groqBakInvalidMarker d = false)
    (hok : runGroqBakTry userInput (GroqBakOutcome.parsed d tools) = Except.ok r) :
    r.confidence ≥ mkRat 1 2 := by
  unfold runGroqBakTry groqBakFromData at hok
  simp only [hvalid, Bool.false_eq_true, if_false] at hok
  cases hname : jsOrNone d.name with
  | none => rw [hname] at hok; exact absurd hok (by simp)
  | some nm =>
    rw [hname] at hok
    simp only [Except.ok.injEq] at hok
    rw [← hok]
    exact le_max_right _ _

theorem groq_bak_confidence_floor_witness :
    groqBakInvalidMarker c5BakData = false
  ∧ runGroqBakTry "atorvastatin" c5BakOutcome =
      Except.ok (GroqServiceBak.normalizeMedication "atorvastatin" c5BakOutcome)
  ∧ (GroqServiceBak.normalizeMedication "atorvastatin" c5BakOutcome).confidence ≥ mkRat 1 2 :=
  ⟨by decide, rfl,
    groq_bak_confidence_floor "atorvastatin" c5BakData false _ (by decide) rfl⟩

/-- C6 counterexample: on a transport error for an input containing the
well-known generic "lisinopril", the live normalizeMedication returns
confidence 0.1 — not the 0.7 the claim requires for such inputs. -/
theorem groq_error_fallback_counterexample :
    jsIncludes (jsLower "Lisinopril 10mg") "lisinopril" = true
  ∧ (GroqService.normalizeMedication "Lisinopril 10mg"
      (GroqOutcome.transportError "fetch failed")).confidence = mkRat 1 10
  ∧ mkRat 1 10 ≠ mkRat 7 10 :=
  ⟨by decide, rfl, by decide⟩

/-- C6 (amended): on any transport/backend error the live normalizeMedication
never raises and always returns confidence 0.1, echoing the raw input as both
name and genericName; the backup variant (groqService.ts.bak) returns
confidence 0.7 when the raw input case-insensitively contains one of the five
well-known generics and 0.2 otherwise, echoing the raw input as name and its
lowercasing as genericName. -/
theorem groq_error_fallback_behavior (input msg : String) :
    GroqService.normalizeMedication input (GroqOutcome.transportError msg) =
      { medication :=
          { name := input, genericName := some input
            strength := some "Unknown", dosageForm := some "tablet" }
        confidence := mkRat 1 10
        searchResults := some ("Error: " ++ msg) }
  ∧ GroqServiceBak.normalizeMedication input (GroqBakOutcome.transportError msg) =
      { medication :=
          { name := input, genericName := some (jsLower input)
            strength := some "Unknown", dosageForm := some "tablet" }
        confidence :=
          if commonMeds.any (fun med => jsIncludes (jsLower input) med) then mkRat 7 10
          else mkRat 1 5
        searchResults := some ("Error: " ++ msg) } :=
  ⟨rfl, rfl⟩

/-- C1: after both sources settle, the remote result is selected iff it
fulfilled with non-null `is_covered`, non-null `tier` and a `data_source`
other than the timeout marker; otherwise the local result is selected iff it
fulfilled with `found = true`; otherwise the synthesized not-found response
(isCovered false, tier null, explanation naming the drug) is returned.  In
particular a found local result beats a remote timeout, and a remote
rejection never prevents use of the local result. -/
theorem arbitration_precedence (medName carrier : String)
    (localR : Settled LookupResult) (ragR : Settled ToolhouseCoverageResponse)
    (hinv : ∀ l, localR = Settled.fulfilled l → l.isFound = true → l.entry.isSome = true) :
    (selectedSource (arbitrate medName carrier localR ragR) = some "rag_primary" ↔
        ragAcceptable ragR = true)
  ∧ (∀ v, ragR = Settled.fulfilled v → ragAcceptable ragR = true →
        arbitrate medName carrier localR ragR = Except.ok (v, "rag_primary"))
  ∧ (selectedSource (arbitrate medName carrier localR ragR) = some "local_primary" ↔
        (ragAcceptable ragR = false ∧ localFound localR = true))
  ∧ (ragAcceptable ragR = false → localFound localR = false →
        arbitrate medName carrier localR ragR =
          Except.ok (notFoundToolhouse medName, "not_found"))
  ∧ (notFoundToolhouse medName).is_covered = some false
  ∧ (notFoundToolhouse medName).tier = none
  ∧ jsIncludes (notFoundToolhouse medName).explanation medName = true := by
  have hragT : ragAcceptable ragR = true →
      ∃ v, ragR = Settled.fulfilled v ∧
        arbitrate medName carrier localR ragR = Except.ok (v, "rag_primary") := by
    intro hacc
    cases hr : ragR with
    | rejected r => rw [hr] at hacc; exact absurd hacc (by simp [ragAcceptable])
    | fulfilled v =>
      rw [hr] at hacc
      simp only [ragAcceptable] at hacc
      exact ⟨v, rfl, by simp [arbitrate, hacc]⟩
  have hragF : ragAcceptable ragR = false →
      arbitrate medName carrier localR ragR = arbitrateLocal medName carrier localR := by
    intro hacc
    cases hr : ragR with
    | rejected r => rfl
    | fulfilled v =>
      rw [hr] at hacc
      simp only [ragAcceptable] at hacc
      simp [arbitrate, hacc]
  have hlocT : localFound localR = true →
      ∃ th, arbitrateLocal medName carrier localR = Except.ok (th, "local_primary") := by
    intro hf
    cases hl : localR with
    | rejected r => rw [hl] at hf; exact absurd hf (by simp [localFound])
    | fulfilled l =>
      rw [hl] at hf
      simp only [localFound] at hf
      obtain ⟨e, he⟩ := Option.isSome_iff_exists.mp (hinv l hl hf)
      obtain ⟨th, hth⟩ : ∃ th, localToToolhouse medName carrier l = Except.ok th := by
        unfold localToToolhouse
        rw [he]
        exact ⟨_, rfl⟩
      refine ⟨th, ?_⟩
      simp [arbitrateLocal, hf, hth, Except.map]
  have hlocF : localFound localR = false →
      arbitrateLocal medName carrier localR =
        Except.ok (notFoundToolhouse medName, "not_found") := by
    intro hf
    cases hl : localR with
    | rejected r => rfl
    | fulfilled l =>
      rw [hl] at hf
      simp only [localFound] at hf
      simp [arbitrateLocal, hf]
  refine ⟨?_, ?_, ?_, ?_, rfl, rfl, ?_⟩
  · constructor
    · intro hsel
      by_contra hacc
      rw [Bool.not_eq_true] at hacc
      rw [hragF hacc] at hsel
      by_cases hf : localFound localR = true
      · obtain ⟨th, hth⟩ := hlocT hf
        rw [hth] at hsel
        simp [selectedSource] at hsel
      · rw [hlocF (Bool.not_eq_true _ ▸ hf)] at hsel
        simp [selectedSource] at hsel
    · intro hacc
      obtain ⟨v, _, harb⟩ := hragT hacc
      rw [harb]
      rfl
  · intro v hv hacc
    obtain ⟨w, hw, harb⟩ := hragT hacc
    rw [hv] at hw
    cases hw
    exact harb
  · constructor
    · intro hsel
      by_cases hacc : ragAcceptable ragR = true
      · obtain ⟨v, _, harb⟩ := hragT hacc
        rw [harb] at hsel
        simp [selectedSource] at hsel
      · rw [Bool.not_eq_true] at hacc
        refine ⟨hacc, ?_⟩
        by_contra hf
        rw [Bool.not_eq_true] at hf
        rw [hragF hacc, hlocF hf] at hsel
        simp [selectedSource] at hsel
    · rintro ⟨hacc, hf⟩
      obtain ⟨th, hth⟩ := hlocT hf
      rw [hragF hacc, hth]
      rfl
  · intro hacc hf
    rw [hragF hacc]
    exact hlocF hf
  · exact jsIncludes_append_left medName _

theorem arbitration_precedence_witness :
    (∀ l, c1LocalR = Settled.fulfilled l → l.isFound = true → l.entry.isSome = true)
  ∧ ragAcceptable c1RagTimeout = false
  ∧ localFound c1LocalR = true
  ∧ selectedSource (arbitrate "Humira" "Aetna" c1LocalR c1RagTimeout) =
      some "local_primary" := by
  have hinv : ∀ l, c1LocalR = Settled.fulfilled l → l.isFound = true → l.entry.isSome = true := by
    intro l h _
    cases h
    rfl
  refine ⟨hinv, rfl, rfl, ?_⟩
  exact (arbitration_precedence "Humira" "Aetna" c1LocalR c1RagTimeout hinv).2.2.1.mpr
    ⟨rfl, rfl⟩

/-- C9 (amended): for a loaded plan with at least one formulary entry in
which every key and every listed brand name is non-empty, an empty or
whitespace-only query returns found with the first entry in iteration order:
stages 1-4 cannot match the empty normalized query, and the loose-substring
stage accepts every key as containing the empty string.  The proviso is
necessary: the shipped aetna-choice-pos plan lists an empty brand name on its
last entry, which the combined generic/brand stage matches first (see the
counterexample). -/
theorem empty_query_returns_first_entry
    (formularies : List (String × FormularyData)) (planId q : String)
    (fd : FormularyData) (k : String) (e : FormularyEntry)
    (rest : List (String × FormularyEntry))
    (hplan : planLookup formularies planId = some fd)
    (hform : fd.formulary = (k, e) :: rest)
    (hempty : normalizeQuery q = "")
    (hkeys : ∀ kv ∈ fd.formulary, kv.1 ≠ "")
    (hbrands : ∀ kv ∈ fd.formulary, brandNamesNonempty kv.2 = true) :
    FormularyService.checkCoverage formularies planId q = foundResult fd (k, e) := by
  have h1 : fd.formulary.find? (exactKeyMatch "") = none := by
    rw [List.find?_eq_none]
    intro kv hkv hcon
    unfold exactKeyMatch at hcon
    rw [beq_iff_eq] at hcon
    exact hkeys kv hkv ((jsLower_eq_empty_iff _).mp hcon)
  have h2 : fd.formulary.find? (genericBrandMatch "") = none := by
    rw [List.find?_eq_none]
    intro kv hkv hcon
    unfold genericBrandMatch at hcon
    rw [Bool.or_eq_true] at hcon
    rcases hcon with hgen | hbr
    · rw [Bool.and_eq_true, decide_eq_true_eq, beq_iff_eq] at hgen
      exact hgen.1 ((jsLower_eq_empty_iff _).mp hgen.2)
    · cases hbn : kv.2.brand_names with
      | none => rw [hbn] at hbr; exact Bool.noConfusion hbr
      | some bs =>
        rw [hbn] at hbr
        rw [List.any_eq_true] at hbr
        obtain ⟨b, hb, hbeq⟩ := hbr
        rw [beq_iff_eq] at hbeq
        have hball := hbrands kv hkv
        unfold brandNamesNonempty at hball
        rw [hbn, List.all_eq_true] at hball
        have hbne := hball b hb
        rw [bne_iff_ne] at hbne
        exact hbne ((jsLower_eq_empty_iff _).mp hbeq)
  have h3 : aliasLookup "" = none := by decide
  have h4 : fd.formulary.find? (looseMatch "") = some (k, e) := by
    rw [hform]
    apply List.find?_cons_of_pos
    unfold looseMatch
    have hinc : jsIncludes (jsLower k) "" = true := by
      unfold jsIncludes
      rw [decide_eq_true_iff]
      exact List.nil_infix
    rw [hinc]
    rfl
  rw [checkCoverage_unfold]
  simp only [hplan, hempty, h1, h2, h3, h4]

/-- C9 counterexample: in the shipped aetna-choice-pos plan the last
formulary entry, xarelto, lists an empty brand name; a whitespace-only query
therefore matches it in the combined generic/brand stage — before the
loose-substring stage is reached — and the lookup returns the last entry
xarelto, not the first entry acetaminophen. -/
theorem empty_query_matches_empty_brand_counterexample :
    (aetnaChoicePos.formulary.head?).map (fun kv => kv.1) = some "acetaminophen"
  ∧ aetnaXarelto.brand_names = some [""]
  ∧ FormularyService.checkCoverage aetnaPlans "aetna-choice-pos" "   " =
      foundResult aetnaChoicePos ("xarelto", aetnaXarelto)
  ∧ (FormularyService.checkCoverage aetnaPlans "aetna-choice-pos" "   ").matchedName ≠
      some "acetaminophen" :=
  ⟨rfl, rfl, rfl, by decide⟩

theorem empty_query_returns_first_entry_witness :
    planLookup c9Plans "aetna-choice-pos" = some c9Formulary
  ∧ normalizeQuery "   " = ""
  ∧ FormularyService.checkCoverage c9Plans "aetna-choice-pos" "   " =
      foundResult c9Formulary ("acetaminophen", c9Entry) := by
  refine ⟨rfl, by decide, ?_⟩
  exact empty_query_returns_first_entry c9Plans "aetna-choice-pos" "   " c9Formulary
    "acetaminophen" c9Entry [] rfl rfl (by decide) (by decide) (by decide)

/-- C7 counterexample: the claim's ordered stages (all generic-name matches
before any brand-name match) disagree with the source's single combined pass:
with an earlier entry matching by brand and a later entry matching by generic
name, the source returns the earlier entry while the claimed ordering would
return the later one. -/
theorem formulary_stage_order_counterexample :
    (FormularyService.checkCoverage c7Plans "plan-x" "Target").matchedName = some "drugone"
  ∧ (specOrderedLookup c7Plans "plan-x" "Target").matchedName = some "drugtwo"
  ∧ FormularyService.checkCoverage c7Plans "plan-x" "Target" ≠
      specOrderedLookup c7Plans "plan-x" "Target" :=
  ⟨rfl, rfl, by decide⟩

/-- C7 (amended): the lookup tries ordered stages with the first hit winning —
(1) exact case-insensitive key match; (2/3) one combined pass per entry that
tests the entry's genericName and then its brandNames members (not two
separate ordered sweeps); (4) the static alias map with a recursive re-lookup
of the mapped name; (5) loose substring match; if no stage matches the result
has found=false.  The lookup is a pure function and recursion depth two is
exact for the static alias table. -/
theorem formulary_lookup_staged (formularies : List (String × FormularyData))
    (planId medName : String) :
    (planLookup formularies planId = none →
        FormularyService.checkCoverage formularies planId medName = { isFound := false })
  ∧ (∀ fd, planLookup formularies planId = some fd →
      (∀ kv, fd.formulary.find? (exactKeyMatch (normalizeQuery medName)) = some kv →
          FormularyService.checkCoverage formularies planId medName = foundResult fd kv)
      ∧ (fd.formulary.find? (exactKeyMatch (normalizeQuery medName)) = none →
          (∀ kv, fd.formulary.find? (genericBrandMatch (normalizeQuery medName)) = some kv →
              FormularyService.checkCoverage formularies planId medName = foundResult fd kv)
          ∧ (fd.formulary.find? (genericBrandMatch (normalizeQuery medName)) = none →
              (∀ mapped, aliasLookup (normalizeQuery medName) = some mapped →
                  FormularyService.checkCoverage formularies planId medName =
                    FormularyService.checkCoverage formularies planId mapped)
              ∧ (aliasLookup (normalizeQuery medName) = none →
                  (∀ kv, fd.formulary.find? (looseMatch (normalizeQuery medName)) = some kv →
                      FormularyService.checkCoverage formularies planId medName =
                        foundResult fd kv)
                  ∧ (fd.formulary.find? (looseMatch (normalizeQuery medName)) = none →
                      FormularyService.checkCoverage formularies planId medName =
                        { isFound := false, formulary := some fd }
                      ∧ (FormularyService.checkCoverage formularies planId medName).isFound
                          = false)))))
  ∧ (∀ n, checkCoverageFuel (n + 2) formularies planId medName =
        FormularyService.checkCoverage formularies planId medName) := by
  refine ⟨?_, ?_, fun n => checkCoverageFuel_stable formularies planId medName n⟩
  · intro hp
    rw [checkCoverage_unfold]
    simp only [hp]
  · intro fd hp
    refine ⟨?_, ?_⟩
    · intro kv h1
      rw [checkCoverage_unfold]
      simp only [hp, h1]
    · intro h1
      refine ⟨?_, ?_⟩
      · intro kv h2
        rw [checkCoverage_unfold]
        simp only [hp, h1, h2]
      · intro h2
        refine ⟨?_, ?_⟩
        · intro mapped h3
          rw [checkCoverage_unfold]
          simp only [hp, h1, h2, h3]
          exact (checkCoverageFuel_succ_of_no_alias formularies planId mapped
            (aliasLookup_mapped_none h3) 1).symm
        · intro h3
          refine ⟨?_, ?_⟩
          · intro kv h4
            rw [checkCoverage_unfold]
            simp only [hp, h1, h2, h3, h4]
          · intro h4
            constructor
            · rw [checkCoverage_unfold]
              simp only [hp, h1, h2, h3, h4]
            · rw [checkCoverage_unfold]
              simp only [hp, h1, h2, h3, h4]

theorem formulary_lookup_staged_witness :
    planLookup c7Plans "plan-x" = some c7Formulary
  ∧ aliasLookup (normalizeQuery "Advil") = some "ibuprofen"
  ∧ FormularyService.checkCoverage c7Plans "plan-x" "Advil" =
      FormularyService.checkCoverage c7Plans "plan-x" "ibuprofen" := by
  refine ⟨rfl, by decide, ?_⟩
  have h := (formulary_lookup_staged c7Plans "plan-x" "Advil").2.1 c7Formulary rfl
  exact ((h.2 (by decide)).2 (by decide)).1 "ibuprofen" (by decide)

/-- C8 counterexample: in the fast path, a prior-auth-required result with
copay 30 makes the code invoke findAlternatives (the claim requires
researchPAStrategies there), and a cheap no-PA result triggers no
augmentation at all (the claim requires findPriceComparison as the default). -/
theorem augmentation_choice_counterexample :
    c8FastTh.prior_auth_required = true
  ∧ chooseAugFast c8FastTh = some AugOp.findAlternatives
  ∧ chooseAugFast c8FastTh ≠ some AugOp.researchPAStrategies
  ∧ chooseAugFast { c8FastTh with copay := some 20, prior_auth_required := false } = none :=
  ⟨rfl, by decide, by decide, by decide⟩

/-- C8 (amended): when web research is requested, the arbitration path chooses
exactly one operation from the arbitrated result — findAlternatives when the
result is not covered, or its copay is truthy and above 100; else
researchPAStrategies when prior authorization is required; else
findPriceComparison — and a rejected augmentation call never fails the
request (the response is still assembled, with webResearch absent).  The fast
path instead invokes findAlternatives iff the copay exceeds 50 or prior
authorization is required, and otherwise performs no augmentation at all. -/
theorem augmentation_choice (th : ToolhouseCoverageResponse) :
    (chooseAugArbitration th = AugOp.findAlternatives ↔
        (th.is_covered ≠ some true ∨ ∃ c, th.copay = some c ∧ c ≠ 0 ∧ c > 100))
  ∧ (chooseAugArbitration th = AugOp.researchPAStrategies ↔
        (th.is_covered = some true ∧ (∀ c, th.copay = some c → ¬(c ≠ 0 ∧ c > 100)) ∧
         th.prior_auth_required = true))
  ∧ (chooseAugArbitration th = AugOp.findPriceComparison ↔
        (th.is_covered = some true ∧ (∀ c, th.copay = some c → ¬(c ≠ 0 ∧ c > 100)) ∧
         th.prior_auth_required = false))
  ∧ (chooseAugFast th = some AugOp.findAlternatives ↔
        ((∃ c, th.copay = some c ∧ c > 50) ∨ th.prior_auth_required = true))
  ∧ (chooseAugFast th = none ↔
        ¬((∃ c, th.copay = some c ∧ c > 50) ∨ th.prior_auth_required = true))
  ∧ (∀ (req : WRRequest) (nr : NormalizedMedicationResult) (o : WROracle)
        (th2 : ToolhouseCoverageResponse) (ds msg : String),
        arbitrate nr.medication.name req.insurancePlan.carrier o.localRes o.rag =
          Except.ok (th2, ds) →
        req.includeWebResearch = true →
        o.aug (chooseAugArbitration th2) = Settled.rejected msg →
        CoverageServiceWR.arbitrationStep req nr o =
          Except.ok
            { response := wrArbitrationResponse nr.medication req.insurancePlan th2 none
                o.totalTime nr.confidence o.now
              ragInvoked := true
              augChosen := some (chooseAugArbitration th2) }) := by
  have hfastCond : ((match th.copay with
      | some c => decide (c > 50)
      | none => false) || th.prior_auth_required) = true ↔
      ((∃ c, th.copay = some c ∧ c > 50) ∨ th.prior_auth_required = true) := by
    rcases hcp : th.copay with _ | c
    · simp [hcp]
    · simp [hcp]
  have harbCond : (!(match th.is_covered with
      | some b => b
      | none => false) ||
      (match th.copay with
       | some c => decide (c ≠ 0) && decide (c > 100)
       | none => false)) = true ↔
      (th.is_covered ≠ some true ∨ ∃ c, th.copay = some c ∧ c ≠ 0 ∧ c > 100) := by
    rcases hic : th.is_covered with _ | b
    · simp [hic]
    · rcases hcp : th.copay with _ | c
      · cases b <;> simp [hic, hcp]
      · cases b <;> simp [hic, hcp, and_assoc]
  refine ⟨?_, ?_, ?_, ?_, ?_, ?_⟩
  · unfold chooseAugArbitration
    by_cases h : (!(match th.is_covered with
        | some b => b
        | none => false) ||
        (match th.copay with
         | some c => decide (c ≠ 0) && decide (c > 100)
         | none => false)) = true
    · rw [if_pos h]
      exact iff_of_true rfl (harbCond.mp h)
    · rw [if_neg h]
      refine iff_of_false ?_ (fun hr => h (harbCond.mpr hr))
      by_cases hpa : th.prior_auth_required = true
      · rw [if_pos hpa]
        exact fun hcon => AugOp.noConfusion hcon
      · rw [if_neg hpa]
        exact fun hcon => AugOp.noConfusion hcon
  · unfold chooseAugArbitration
    by_cases h : (!(match th.is_covered with
        | some b => b
        | none => false) ||
        (match th.copay with
         | some c => decide (c ≠ 0) && decide (c > 100)
         | none => false)) = true
    · rw [if_pos h]
      refine iff_of_false (fun hcon => AugOp.noConfusion hcon) ?_
      rintro ⟨hic, hcp, _⟩
      rcases harbCond.mp h with hnc | ⟨c, hc, hcne, hc100⟩
      · exact hnc hic
      · exact (hcp c hc) ⟨hcne, hc100⟩
    · rw [if_neg h]
      have hic : th.is_covered = some true := by
        by_contra hic
        exact h (harbCond.mpr (Or.inl hic))
      have hcp : ∀ c, th.copay = some c → ¬(c ≠ 0 ∧ c > 100) := by
        intro c hc hcc
        exact h (harbCond.mpr (Or.inr ⟨c, hc, hcc.1, hcc.2⟩))
      by_cases hpa : th.prior_auth_required = true
      · rw [if_pos hpa]
        exact iff_of_true rfl ⟨hic, hcp, hpa⟩
      · rw [if_neg hpa]
        exact iff_of_false (fun hcon => AugOp.noConfusion hcon)
          (fun hr => hpa hr.2.2)
  · unfold chooseAugArbitration
    by_cases h : (!(match th.is_covered with
        | some b => b
        | none => false) ||
        (match th.copay with
         | some c => decide (c ≠ 0) && decide (c > 100)
         | none => false)) = true
    · rw [if_pos h]
      refine iff_of_false (fun hcon => AugOp.noConfusion hcon) ?_
      rintro ⟨hic, hcp, _⟩
      rcases harbCond.mp h with hnc | ⟨c, hc, hcne, hc100⟩
      · exact hnc hic
      · exact (hcp c hc) ⟨hcne, hc100⟩
    · rw [if_neg h]
      have hic : th.is_covered = some true := by
        by_contra hic
        exact h (harbCond.mpr (Or.inl hic))
      have hcp : ∀ c, th.copay = some c → ¬(c ≠ 0 ∧ c > 100) := by
        intro c hc hcc
        exact h (harbCond.mpr (Or.inr ⟨c, hc, hcc.1, hcc.2⟩))
      by_cases hpa : th.prior_auth_required = true
      · rw [if_pos hpa]
        exact iff_of_false (fun hcon => AugOp.noConfusion hcon)
          (fun hr => by rw [hr.2.2] at hpa; exact Bool.noConfusion hpa)
      · rw [if_neg hpa]
        rw [Bool.not_eq_true] at hpa
        exact iff_of_true rfl ⟨hic, hcp, hpa⟩
  · unfold chooseAugFast
    by_cases h : ((match th.copay with
        | some c => decide (c > 50)
        | none => false) || th.prior_auth_required) = true
    · rw [if_pos h]
      exact iff_of_true rfl (hfastCond.mp h)
    · rw [if_neg h]
      exact iff_of_false (fun hcon => Option.noConfusion hcon)
        (fun hr => h (hfastCond.mpr hr))
  · unfold chooseAugFast
    by_cases h : ((match th.copay with
        | some c => decide (c > 50)
        | none => false) || th.prior_auth_required) = true
    · rw [if_pos h]
      exact iff_of_false (fun hcon => Option.noConfusion hcon)
        (fun hnr => hnr (hfastCond.mp h))
    · rw [if_neg h]
      exact iff_of_true rfl (fun hr => h (hfastCond.mpr hr))
  · intro req nr o th2 ds msg harb hwr hrej
    unfold CoverageServiceWR.arbitrationStep
    rw [harb]
    simp only [hwr, if_true]
    unfold runAugment
    rw [hrej]

theorem augmentation_choice_witness :
    arbitrate c8Nr.medication.name c8Req.insurancePlan.carrier c8Oracle.localRes c8Oracle.rag =
      Except.ok (c8RagTh, "rag_primary")
  ∧ c8Req.includeWebResearch = true
  ∧ c8Oracle.aug (chooseAugArbitration c8RagTh) = Settled.rejected "research failed"
  ∧ CoverageServiceWR.arbitrationStep c8Req c8Nr c8Oracle =
      Except.ok
        { response := wrArbitrationResponse c8Nr.medication c8Req.insurancePlan c8RagTh none
            c8Oracle.totalTime c8Nr.confidence c8Oracle.now
          ragInvoked := true
          augChosen := some (chooseAugArbitration c8RagTh) } := by
  refine ⟨rfl, rfl, rfl, ?_⟩
  exact (augmentation_choice c8RagTh).2.2.2.2.2 c8Req c8Nr c8Oracle c8RagTh "rag_primary"
    "research failed" rfl rfl rfl

end CoveredRx
